import Mathlib

/-!
Shallow embedding of the Oddsfun betting-market backend
(src/utils/validate.js, src/db.js, src/solana.js, src/routes/bets.js).

JavaScript numbers are modelled as `JSNum` (finite rationals plus NaN and the
two infinities); machine-level floating point rounding is abstracted to exact
rational arithmetic.  The SQLite database is modelled as two lists of rows.
Network calls (Solana RPC lookups, ethers signature recovery) are modelled as
oracle parameters supplying their observable result.
-/

/-- A JavaScript number: NaN, the two infinities, or a finite value
(modelled as an exact rational). -/
inductive JSNum where
  | nan
  | posInf
  | negInf
  | fin (q : ℚ)
deriving DecidableEq, Repr

/-- `Number.isFinite`. -/
def JSNum.isFinite : JSNum → Bool
  | .fin _ => true
  | _ => false

/-- `Math.round` on a finite value: round half toward positive infinity. -/
def jsRound (q : ℚ) : ℤ := (q + 1/2).floor

/-- The constant `LAMPORTS_PER_SOL = 1e9` from `@solana/web3.js`. -/
def LAMPORTS_PER_SOL : ℚ := 1000000000

/-- `x * LAMPORTS_PER_SOL` on a JS number (multiplication by a finite
positive constant preserves NaN and the infinities). -/
def JSNum.mulLamports : JSNum → JSNum
  | .nan => .nan
  | .posInf => .posInf
  | .negInf => .negInf
  | .fin q => .fin (q * LAMPORTS_PER_SOL)

/-- `Math.round` on a JS number (`Math.round` of NaN is NaN, of ±∞ is ±∞). -/
def JSNum.mathRound : JSNum → JSNum
  | .nan => .nan
  | .posInf => .posInf
  | .negInf => .negInf
  | .fin q => .fin (jsRound q)

/-- JavaScript strict equality `===` restricted to numbers: NaN is equal to
nothing, finite values and infinities compare by value. -/
def JSNum.strictEq : JSNum → JSNum → Bool
  | .fin a, .fin b => a = b
  | .posInf, .posInf => true
  | .negInf, .negInf => true
  | _, _ => false

/-- JavaScript truthiness of a number: `0` and `NaN` are falsy. -/
def JSNum.truthy : JSNum → Bool
  | .nan => false
  | .fin q => q ≠ 0
  | _ => true

/-- Truthiness of a string: only the empty string is falsy.  A missing field
is modelled as the empty string (both are rejected identically by the
handlers' truthiness asserts). -/
def truthyS (s : String) : Bool := s ≠ ""

/-- A JSON body value that may be a number or absent, used for the
`amount` field of the evm-receipt route, whose raw value is truthiness
checked before `Number` conversion. -/
inductive JSVal where
  | vnum (n : JSNum)
  | vundef
deriving DecidableEq, Repr

/-- JS truthiness of such a value. -/
def JSVal.truthy : JSVal → Bool
  | .vnum n => n.truthy
  | .vundef => false

/-- `Number(x)` conversion (`Number(undefined)` is NaN). -/
def JSVal.toNumber : JSVal → JSNum
  | .vnum n => n
  | .vundef => .nan

/-- src/utils/validate.js `parseAmountSol`:
returns null unless the numeric conversion is finite and positive, then
clamps to 9 decimals via `Math.round(n * 1e9) / 1e9`. -/
def parseAmountSol : JSNum → Option ℚ
  | .fin n => if n ≤ 0 then none else some ((jsRound (n * 1000000000) : ℚ) / 1000000000)
  | _ => none

/-- A rational has at most 9 decimal places. -/
def atMost9Decimals (q : ℚ) : Prop := (q * 1000000000).den = 1

instance : DecidablePred atMost9Decimals := fun q =>
  inferInstanceAs (Decidable ((q * 1000000000).den = 1))

/-! ## Data model (src/db.js schema) -/

/-- A row of the `markets` table. -/
structure Market where
  id : String
  name : String
  category : String
  yes : Int
  no : Int
  status : String
  created_at : Int
deriving DecidableEq, Repr

/-- A row of the `bets` table.  `amount_sol` is a REAL column fed from JS
numbers, so it is a `JSNum`; `tx` and `proof` are nullable TEXT columns. -/
structure Bet where
  id : String
  market_id : String
  side : String
  amount_sol : JSNum
  wallet : String
  chain : String
  created_at : Int
  status : String
  tx : Option String
  proof : Option String
deriving DecidableEq, Repr

/-- The database state: the two tables, rows in insertion order. -/
structure DB where
  markets : List Market
  bets : List Bet
deriving DecidableEq, Repr

/-! ## Store operations (src/db.js) -/

/-- `getMarket(id)`: `SELECT * FROM markets WHERE id=?`. -/
def getMarket (db : DB) (id : String) : Option Market :=
  db.markets.find? (fun m => m.id = id)

/-- `getBet(id)`: `SELECT * FROM bets WHERE id=?` (also the inline query of
the confirm route). -/
def getBet (db : DB) (id : String) : Option Bet :=
  db.bets.find? (fun b => b.id = id)

/-- `createBet`: INSERT a bets row.  `none` models the SQLite PRIMARY KEY
violation thrown when the generated id already exists. -/
def createBet (db : DB) (nb : Bet) : Option DB :=
  if (db.bets.find? (fun b => b.id = nb.id)).isSome then none
  else some { db with bets := db.bets ++ [nb] }

/-- `markBetConfirmed({id, tx, proof})`:
`UPDATE bets SET status='CONFIRMED', tx=?, proof=? WHERE id=?`
(an UPDATE matching no row is a silent no-op). -/
def markBetConfirmed (db : DB) (id : String) (tx : String) (proof : Option String) : DB :=
  { db with bets := db.bets.map (fun b =>
      if b.id = id then { b with status := "CONFIRMED", tx := some tx, proof := proof } else b) }

/-- `markBetFailed({id, tx, reason})`:
`UPDATE bets SET status='FAILED', tx=? WHERE id=?`.
The `reason` argument is destructured but never bound into the statement. -/
def markBetFailed (db : DB) (id : String) (tx : Option String) (reason : String) : DB :=
  { db with bets := db.bets.map (fun b =>
      if b.id = id then { b with status := "FAILED", tx := tx } else b) }

/-- `listBetsForWallet(wallet)` filter (ordering by created_at descending is
kept abstract; the claims only concern membership). -/
def listBetsForWallet (db : DB) (wallet : String) : List Bet :=
  db.bets.filter (fun b => b.wallet = wallet)

/-- The fixed seed catalogue of src/db.js `seedIfEmpty`
(name, category, yes, no). -/
def seedData : List (String × String × Int × Int) :=
  [ ("New York City Mayoral Election", "Politics", 62, 38),
    ("New Jersey Governor Election 2025", "Politics", 74, 26),
    ("Democratic sweep in Congress?", "Politics", 41, 59),
    ("Zohra Mamdani margin > 10%", "Politics", 28, 72),
    ("Heat vs Clippers — Heat win", "Sports", 46, 54),
    ("Kraken beat Blackhawks", "Sports", 64, 36),
    ("Canucks beat Predators", "Sports", 58, 42),
    ("Seattle vs Minnesota — Seattle win", "Sports", 62, 38),
    ("US Gov shutdown ends by next week", "Macro", 14, 86),
    ("Fed rate cut in December", "Macro", 35, 65),
    ("BTC > $100k by EOY", "Crypto", 22, 78),
    ("SOL > $400 by Q4", "Crypto", 31, 69),
    ("ETH ETF approved this quarter", "Crypto", 27, 73),
    ("Israel–Hamas ceasefire this month", "Politics", 18, 82),
    ("Maduro out by year end", "Politics", 21, 79),
    ("US CPI MoM < 0.1% next print", "Macro", 44, 56),
    ("OpenAI releases new flagship model", "Tech", 52, 48),
    ("Apple headset > 5M shipments in 2026", "Tech", 19, 81),
    ("Bitcoin dominance > 60% this year", "Crypto", 33, 67),
    ("S&P 500 makes new ATH this quarter", "Macro", 48, 52) ]

/-- The market rows a seed run would insert, given the nanoid stream
`idGen` and the timestamp `now`. -/
def seedRows (idGen : Nat → String) (now : Int) : List Market :=
  (List.range seedData.length).map (fun i =>
    let d := seedData.get! i
    { id := idGen i, name := d.1, category := d.2.1, yes := d.2.2.1, no := d.2.2.2,
      status := "LIVE", created_at := now })

/-- `seedIfEmpty()`: if `SELECT COUNT(*) FROM markets` is positive, return;
otherwise insert the catalogue inside one transaction.  The transaction
rolls back (leaving the table unchanged) if a generated id collides, which
is the only way an INSERT can fail on the empty table. -/
def seedIfEmpty (idGen : Nat → String) (now : Int) (db : DB) : DB :=
  if db.markets.length > 0 then db
  else if ((List.range seedData.length).map idGen).Nodup then
    { db with markets := db.markets ++ seedRows idGen now }
  else db

/-! ## Chain adapter (src/solana.js) -/

/-- The observable result of `getParsedTransaction` as consumed by
`verifySolTransfer`: the transaction may be absent, present without a
system-program transfer instruction, or present with the first transfer
instruction's parsed `info` (source, destination, lamports). -/
inductive ChainLookup where
  | notFound
  | noTransfer
  | transfer (source destination : String) (lamports : Int)
deriving DecidableEq, Repr

/-- The return value of `verifySolTransfer`: `{ok: true}` or
`{ok: false, reason}`. -/
inductive VerifyResult where
  | ok
  | fail (reason : String)
deriving DecidableEq, Repr

/-- src/solana.js `verifySolTransfer`: fetch the parsed transaction, find a
system transfer instruction, and require strict equality of its source,
destination and lamports with `fromPubkey`, `toPubkey` and
`expectedLamports`.  `toPubkey` is an `Option String` because the handler
passes the raw environment value, which may be unset (and an unset value
never strictly equals a string). -/
def verifySolTransfer (lookup : ChainLookup) (fromPubkey : String)
    (toPubkey : Option String) (expectedLamports : JSNum) : VerifyResult :=
  match lookup with
  | .notFound => .fail "TX_NOT_FOUND"
  | .noTransfer => .fail "NO_TRANSFER_IN_TX"
  | .transfer s d l =>
    if s = fromPubkey && some d = toPubkey && JSNum.strictEq (.fin l) expectedLamports then
      .ok
    else
      .fail ("MISMATCH from=" ++ s ++ " to=" ++ d ++ " lamports=" ++ toString l)

/-- The outcome of `buildSolTransferTx` as observed by the initiate
handler: a base64 transaction, or a thrown RPC/build error. -/
inductive BuildOutcome where
  | built (txBase64 : String)
  | buildErr (msg : String)
deriving DecidableEq, Repr

/-! ## HTTP layer (src/routes/bets.js with src/server.js error handler) -/

/-- Environment configuration visible to the bet routes. -/
structure Env where
  treasury : Option String
  rpc : Option String
deriving DecidableEq, Repr

/-- A handler response after the centralized error formatter of
src/server.js: either a route-specific success body, the confirm route's
explicit 400 `{ok:false, reason}`, or the error handler's
`{ok:false, error: msg}` with `err.status || 500`. -/
inductive Resp where
  | initiateOk (betId : String) (txBase64 : String)
  | confirmOk (betId : String) (txSignature : String) (proof : String)
  | evmOk (betId : String) (recovered : String)
  | confirmFail (reason : String)
  | seedOk
  | err (status : Nat) (msg : String)
deriving DecidableEq, Repr

/-- The HTTP status code of a response. -/
def Resp.code : Resp → Nat
  | .err s _ => s
  | .confirmFail _ => 400
  | _ => 200

/-- Body of POST /api/bets/initiate. -/
structure InitiateReq where
  marketId : String
  side : String
  amountSol : JSNum
  wallet : String
deriving DecidableEq, Repr

/-- The truthiness-and-minimum check `amt && amt >= 0.01` applied to the
result of `parseAmountSol` (null and 0 are falsy). -/
def amountAccepted : Option ℚ → Bool
  | none => false
  | some a => a ≠ 0 && 1/100 ≤ a

/-- The wallet regex `/^([1-9A-HJ-NP-Za-km-z]{32,44})$/` character class. -/
def base58Char (c : Char) : Bool :=
  ('1' ≤ c && c ≤ '9') || ('A' ≤ c && c ≤ 'H') || ('J' ≤ c && c ≤ 'N') ||
  ('P' ≤ c && c ≤ 'Z') || ('a' ≤ c && c ≤ 'k') || ('m' ≤ c && c ≤ 'z')

/-- `/^([1-9A-HJ-NP-Za-km-z]{32,44})$/.test(wallet)`. -/
def walletFormatOk (w : String) : Bool :=
  32 ≤ w.length && w.length ≤ 44 && w.toList.all base58Char

/-- POST /api/bets/initiate.  Oracle inputs: `treasuryValid` models whether
`new PublicKey(TREASURY_PUBKEY)` succeeds, `build` the awaited
`buildSolTransferTx`, `newId` the nanoid and `now` the clock of
`createBet`.  Returns the database after the request and the response. -/
def initiate (env : Env) (treasuryValid : Bool) (build : BuildOutcome)
    (newId : String) (now : Int) (req : InitiateReq) (db : DB) : DB × Resp :=
  if ¬ truthyS req.marketId then (db, .err 400 "marketId is required")
  else if ¬ (req.side = "YES" || req.side = "NO") then (db, .err 400 "side must be YES or NO")
  else if ¬ amountAccepted (parseAmountSol req.amountSol) then
    (db, .err 400 "Minimum amount is 0.01 SOL")
  else if (getMarket db req.marketId).isNone then (db, .err 400 "Unknown market")
  else if ¬ walletFormatOk req.wallet then (db, .err 400 "Invalid Solana wallet")
  else
    match createBet db
      { id := newId, market_id := req.marketId, side := req.side,
        amount_sol := .fin ((parseAmountSol req.amountSol).getD 0), wallet := req.wallet,
        chain := "solana", created_at := now, status := "PENDING", tx := none, proof := none } with
    | none => (db, .err 500 "UNIQUE constraint failed: bets.id")
    | some db1 =>
      match env.treasury with
      | none => (db1, .err 500 "TREASURY_PUBKEY not set")
      | some _ =>
        if ¬ treasuryValid then (db1, .err 500 "Invalid public key input")
        else
          match build with
          | .buildErr msg => (db1, .err 500 msg)
          | .built txB => (db1, .initiateOk newId txB)

/-- Body of POST /api/bets/confirm. -/
structure ConfirmReq where
  betId : String
  txSignature : String
  wallet : String
deriving DecidableEq, Repr

/-- POST /api/bets/confirm.  `lookup` is the oracle for the parsed
transaction fetch inside `verifySolTransfer`. -/
def confirm (env : Env) (lookup : ChainLookup) (req : ConfirmReq) (db : DB) : DB × Resp :=
  if ¬ (truthyS req.betId && truthyS req.txSignature && truthyS req.wallet) then
    (db, .err 400 "betId, txSignature, wallet are required")
  else
    match getBet db req.betId with
    | none => (db, .err 400 "Bet not found")
    | some bet =>
      if ¬ (bet.wallet = req.wallet) then (db, .err 400 "Wallet mismatch")
      else
        match verifySolTransfer lookup req.wallet env.treasury
            ((bet.amount_sol.mulLamports).mathRound) with
        | .fail reason =>
          (markBetFailed db req.betId (some req.txSignature) reason, .confirmFail reason)
        | .ok =>
          (markBetConfirmed db req.betId req.txSignature
            (some ("bet:" ++ req.betId ++ ":sig:" ++ req.txSignature)),
           .confirmOk req.betId req.txSignature
            ("bet:" ++ req.betId ++ ":sig:" ++ req.txSignature))

/-- Body of POST /api/bets/evm-receipt.  The `amount` field keeps its raw
JSON value because the handler truthiness-checks it before converting. -/
structure EvmReq where
  marketId : String
  side : String
  amount : JSVal
  address : String
  message : String
  signature : String
deriving DecidableEq, Repr

/-- Case-insensitive address comparison via `.toLowerCase()` (character-wise
lowercasing). -/
def lowerStr (s : String) : String := String.mk (s.data.map Char.toLower)

/-- POST /api/bets/evm-receipt.  `recovered` is the oracle for
`getAddress(verifyMessage(message, signature))`: `none` models a throw in
the ethers calls (surfacing as a 500 through the error handler). -/
def evmReceipt (recovered : Option String) (newId : String) (now : Int)
    (req : EvmReq) (db : DB) : DB × Resp :=
  if ¬ (truthyS req.marketId && truthyS req.side && req.amount.truthy &&
        truthyS req.address && truthyS req.message && truthyS req.signature) then
    (db, .err 400 "Missing fields")
  else if ¬ (req.side = "YES" || req.side = "NO") then (db, .err 400 "Invalid side")
  else
    match recovered with
    | none => (db, .err 500 "signature recovery threw")
    | some rec =>
      if ¬ (lowerStr rec = lowerStr req.address) then (db, .err 400 "Invalid signature")
      else
        match createBet db
          { id := newId, market_id := req.marketId, side := req.side,
            amount_sol := req.amount.toNumber, wallet := req.address, chain := "evm",
            created_at := now, status := "RECEIPT_ONLY", tx := none, proof := none } with
        | none => (db, .err 500 "UNIQUE constraint failed: bets.id")
        | some db1 => (db1, .evmOk newId rec)

/-- Any state-bearing operation of the backend, with its oracle inputs. -/
inductive Op where
  | opInitiate (env : Env) (treasuryValid : Bool) (build : BuildOutcome)
      (newId : String) (now : Int) (req : InitiateReq)
  | opConfirm (env : Env) (lookup : ChainLookup) (req : ConfirmReq)
  | opEvmReceipt (recovered : Option String) (newId : String) (now : Int) (req : EvmReq)
  | opSeed (idGen : Nat → String) (now : Int)

/-- One request against the backend state. -/
def step (op : Op) (db : DB) : DB × Resp :=
  match op with
  | .opInitiate env tv build newId now req => initiate env tv build newId now req db
  | .opConfirm env lookup req => confirm env lookup req db
  | .opEvmReceipt recovered newId now req => evmReceipt recovered newId now req db
  | .opSeed idGen now => (seedIfEmpty idGen now db, .seedOk)

/-! ## Concrete fixtures for witnesses and counterexamples -/

/-- A live market used by the concrete scenarios. -/
def mkt1 : Market :=
  { id := "M1", name := "Fed rate cut in December", category := "Macro",
    yes := 35, no := 65, status := "LIVE", created_at := 0 }

/-- A syntactically valid Solana wallet (32 base-58 characters). -/
def walletW : String := "AAAAAAAAAAAAAAAAAAAAAAAAAAAAAAAA"

/-- A treasury-configured environment. -/
def envW : Env := { treasury := some "TREAS", rpc := some "rpc" }

/-- An environment with TREASURY_PUBKEY unset. -/
def envNoTreasury : Env := { treasury := none, rpc := none }

/-- An already CONFIRMED bet (fixture for the C1 scenario). -/
def betX1 : Bet :=
  { id := "B1", market_id := "M1", side := "YES", amount_sol := .fin 1,
    wallet := "w1", chain := "solana", created_at := 0, status := "CONFIRMED",
    tx := some "SIG1", proof := some "bet:B1:sig:SIG1" }

/-- Database holding the confirmed bet `betX1`. -/
def dbX1 : DB := { markets := [mkt1], bets := [betX1] }

/-- A repeated confirm request for the already confirmed bet `B1`, with a
different transaction signature. -/
def reqX1 : ConfirmReq := { betId := "B1", txSignature := "SIG2", wallet := "w1" }

/-- A PENDING bet awaiting confirmation (fixture for C2). -/
def betW2 : Bet :=
  { id := "B2", market_id := "M1", side := "YES", amount_sol := .fin 1,
    wallet := "w2", chain := "solana", created_at := 0, status := "PENDING",
    tx := none, proof := none }

/-- Database holding the pending bet `betW2`. -/
def dbW2 : DB := { markets := [mkt1], bets := [betW2] }

/-- A well-formed confirm request for `betW2`. -/
def reqW2 : ConfirmReq := { betId := "B2", txSignature := "SIG", wallet := "w2" }

/-- evm-receipt request carrying a truthy but negative amount (fixture for
the C3 counterexample). -/
def reqX3 : EvmReq :=
  { marketId := "M1", side := "YES", amount := .vnum (.fin (-1)),
    address := "0xAB", message := "hi", signature := "sig" }

/-- Database with one market and no bets. -/
def dbM1 : DB := { markets := [mkt1], bets := [] }

/-- A fully valid initiate request (fixtures for C3/C4/C10 witnesses). -/
def reqW3 : InitiateReq :=
  { marketId := "M1", side := "YES", amountSol := .fin 1, wallet := walletW }

/-- The PENDING row inserted by a successful initiate of `reqW3` with fresh
id `N3` at time 0. -/
def pendingW3 : Bet :=
  { id := "N3", market_id := "M1", side := "YES", amount_sol := .fin 1,
    wallet := walletW, chain := "solana", created_at := 0, status := "PENDING",
    tx := none, proof := none }

/-- evm-receipt request naming a market id that exists in no markets row
(fixture for the C4 counterexample). -/
def reqX4 : EvmReq :=
  { marketId := "GHOST", side := "YES", amount := .vnum (.fin 1),
    address := "0xAB", message := "hi", signature := "sig" }

/-- An initiate request whose amount is 0.005 SOL (fixture for C6). -/
def reqW6 : InitiateReq :=
  { marketId := "M1", side := "YES", amountSol := .fin (1/200), wallet := walletW }

/-- A PENDING bet owned by wallet `w1` (fixture for C7). -/
def betW7 : Bet :=
  { id := "B7", market_id := "M1", side := "NO", amount_sol := .fin 1,
    wallet := "w1", chain := "solana", created_at := 0, status := "PENDING",
    tx := none, proof := none }

/-- Database holding `betW7`. -/
def dbW7 : DB := { markets := [mkt1], bets := [betW7] }

/-- Confirm request for `B7` from the wrong wallet `w2`. -/
def reqW7 : ConfirmReq := { betId := "B7", txSignature := "S7", wallet := "w2" }

/-- A collision-free id stream (pairwise distinct strings). -/
def gW : Nat → String := fun n => String.mk (List.replicate n 'a')

/-- A PENDING bet used by the C9 witness. -/
def betW9 : Bet :=
  { id := "B9", market_id := "M1", side := "YES", amount_sol := .fin 1,
    wallet := "w", chain := "solana", created_at := 0, status := "PENDING",
    tx := none, proof := some "p" }

/-- Database holding `betW9`. -/
def dbW9 : DB := { markets := [], bets := [betW9] }

/-! ## Helper lemmas -/

lemma getBet_mapUpdate (db : DB) (g : Bet → Bet) (hg : ∀ b, (g b).id = b.id) (id : String) :
    getBet { db with bets := db.bets.map g } id = (getBet db id).map g := by
  have hpred : ((fun b : Bet => decide (b.id = id)) ∘ g) = (fun b : Bet => decide (b.id = id)) := by
    funext b
    simp [Function.comp, hg]
  unfold getBet
  rw [List.find?_map, hpred]

lemma markBetConfirmed_getBet (db : DB) (id tx : String) (proof : Option String) (id2 : String) :
    getBet (markBetConfirmed db id tx proof) id2 =
      (getBet db id2).map (fun b =>
        if b.id = id then { b with status := "CONFIRMED", tx := some tx, proof := proof } else b) := by
  simp only [markBetConfirmed]
  apply getBet_mapUpdate
  intro b
  by_cases h : b.id = id <;> simp [h]

lemma markBetFailed_getBet (db : DB) (id : String) (tx : Option String) (reason : String)
    (id2 : String) :
    getBet (markBetFailed db id tx reason) id2 =
      (getBet db id2).map (fun b =>
        if b.id = id then { b with status := "FAILED", tx := tx } else b) := by
  simp only [markBetFailed]
  apply getBet_mapUpdate
  intro b
  by_cases h : b.id = id <;> simp [h]

lemma getBet_append_some (db : DB) (nb : Bet) (id : String) (b : Bet)
    (h : getBet db id = some b) :
    getBet { db with bets := db.bets ++ [nb] } id = some b := by
  unfold getBet at h ⊢
  rw [List.find?_append, h]
  rfl

lemma createBet_cases (db : DB) (nb : Bet) :
    createBet db nb = none ∨ createBet db nb = some { db with bets := db.bets ++ [nb] } := by
  unfold createBet
  split <;> simp

lemma seedIfEmpty_bets (g : Nat → String) (now : Int) (db : DB) :
    (seedIfEmpty g now db).bets = db.bets := by
  unfold seedIfEmpty
  split
  · rfl
  · split <;> rfl

lemma parseAmountSol_eq_some (x : JSNum) (a : ℚ) (h : parseAmountSol x = some a) :
    ∃ q : ℚ, x = .fin q ∧ 0 < q ∧ a = (jsRound (q * 1000000000) : ℚ) / 1000000000 := by
  cases x with
  | fin q =>
    by_cases hq : q ≤ 0
    · simp [parseAmountSol, hq] at h
    · refine ⟨q, rfl, lt_of_not_le hq, ?_⟩
      simp [parseAmountSol, hq] at h
      exact h.symm
  | nan => exact absurd h (by simp [parseAmountSol])
  | posInf => exact absurd h (by simp [parseAmountSol])
  | negInf => exact absurd h (by simp [parseAmountSol])

lemma parseAmountSol_atMost9 (x : JSNum) (a : ℚ) (h : parseAmountSol x = some a) :
    atMost9Decimals a := by
  obtain ⟨q, _, _, ha⟩ := parseAmountSol_eq_some x a h
  unfold atMost9Decimals
  rw [ha, div_mul_cancel₀ _ (by norm_num : (1000000000 : ℚ) ≠ 0)]
  exact Rat.den_intCast _

lemma jsRound_eq_floor (q : ℚ) : jsRound q = ⌊q + 1/2⌋ := by
  rw [jsRound, Rat.floor_def', Rat.floor_def]

/-! ## Claims -/

/-- C5: `parseAmountSol` returns the null sentinel (`none`) for every input
that is NaN, infinite, zero or negative after numeric conversion, and for
every finite positive input returns that value rounded to at most 9 decimal
places (the nearest multiple of 10⁻⁹, within half a unit). -/
theorem c5_parseAmountSol_contract :
    parseAmountSol .nan = none ∧ parseAmountSol .posInf = none ∧
    parseAmountSol .negInf = none ∧
    (∀ q : ℚ, q ≤ 0 → parseAmountSol (.fin q) = none) ∧
    (∀ q : ℚ, 0 < q → ∃ r : ℚ,
      parseAmountSol (.fin q) = some r ∧
      r = (jsRound (q * 1000000000) : ℚ) / 1000000000 ∧
      atMost9Decimals r ∧
      |r - q| ≤ 1 / 2000000000) := by
  refine ⟨rfl, rfl, rfl, ?_, ?_⟩
  · intro q hq
    simp [parseAmountSol, hq]
  · intro q hq
    have hq' : ¬ q ≤ 0 := not_le.mpr hq
    refine ⟨(jsRound (q * 1000000000) : ℚ) / 1000000000,
      by simp [parseAmountSol, hq'], rfl,
      parseAmountSol_atMost9 (.fin q) _ (by simp [parseAmountSol, hq']), ?_⟩
    set x : ℚ := q * 1000000000 with hx
    have h1 : ((⌊x + 1/2⌋ : ℤ) : ℚ) ≤ x + 1/2 := Int.floor_le _
    have h2 : x + 1/2 < ((⌊x + 1/2⌋ : ℤ) : ℚ) + 1 := Int.lt_floor_add_one _
    have key : |(jsRound x : ℚ) - x| ≤ 1/2 := by
      rw [jsRound_eq_floor, abs_le]
      constructor <;> linarith
    have hq9 : q = x / 1000000000 := by rw [hx]; field_simp
    have hsplit : (jsRound x : ℚ) / 1000000000 - q = ((jsRound x : ℚ) - x) / 1000000000 := by
      rw [hq9]; ring
    calc |(jsRound x : ℚ) / 1000000000 - q|
        = |(jsRound x : ℚ) - x| / 1000000000 := by
          rw [hsplit, abs_div, abs_of_pos (by norm_num : (0:ℚ) < 1000000000)]
      _ ≤ (1/2) / 1000000000 := by gcongr
      _ = 1 / 2000000000 := by norm_num

/-- Witness for C5 at the concrete input 0.005: finite and positive, and the
returned value is exactly 0.005 (already at 9 decimals). -/
theorem c5_parseAmountSol_contract_witness :
    (0 : ℚ) < 1/200 ∧ parseAmountSol (.fin (1/200)) = some (1/200) := by
  refine ⟨by norm_num, ?_⟩
  obtain ⟨r, hr, hr2, _, _⟩ :=
    c5_parseAmountSol_contract.2.2.2.2 (1/200) (by norm_num)
  rw [hr, hr2, jsRound_eq_floor]
  norm_num

/-- C9: `markBetFailed` sets the targeted bet's status to `FAILED` and
stores the transaction reference; the `reason` argument is not persisted in
any column (the result is independent of it), the markets table is
untouched, and every other column of every row is unchanged. -/
theorem c9_markBetFailed_frame (db : DB) (id : String) (tx : Option String) (r1 r2 : String) :
    markBetFailed db id tx r1 = markBetFailed db id tx r2 ∧
    (markBetFailed db id tx r1).markets = db.markets ∧
    List.Forall₂ (fun b b' =>
        (b.id = id → b' = { b with status := "FAILED", tx := tx }) ∧
        (b.id ≠ id → b' = b))
      db.bets (markBetFailed db id tx r1).bets := by
  refine ⟨rfl, rfl, ?_⟩
  simp only [markBetFailed]
  induction db.bets with
  | nil => exact List.Forall₂.nil
  | cons hd tl ih =>
    refine List.Forall₂.cons ?_ ih
    by_cases h : hd.id = id <;> simp [h]
/-- Witness for C9: concrete update of a one-bet table, two different
reasons, identical results. -/
theorem c9_markBetFailed_frame_witness :
    markBetFailed dbW9 "B9" (some "TX9") "TX_NOT_FOUND"
      = markBetFailed dbW9 "B9" (some "TX9") "NO_TRANSFER_IN_TX" :=
  (c9_markBetFailed_frame dbW9 "B9" (some "TX9") "TX_NOT_FOUND" "NO_TRANSFER_IN_TX").1

/-- C7: a confirm request whose bet exists but whose stored wallet differs
from the supplied wallet is rejected with HTTP 400 "Wallet mismatch" and
the database is returned entirely unchanged. -/
theorem c7_confirm_wallet_mismatch (env : Env) (lookup : ChainLookup) (req : ConfirmReq)
    (db : DB) (bet : Bet)
    (h1 : truthyS req.betId = true) (h2 : truthyS req.txSignature = true)
    (h3 : truthyS req.wallet = true)
    (hb : getBet db req.betId = some bet) (hw : bet.wallet ≠ req.wallet) :
    confirm env lookup req db = (db, .err 400 "Wallet mismatch") := by
  simp [confirm, h1, h2, h3, hb, hw]

/-- Witness for C7: the one-bet table `dbW7` stores wallet `w1`, the
request supplies `w2`; the database comes back unchanged. -/
theorem c7_confirm_wallet_mismatch_witness :
    confirm envW .notFound reqW7 dbW7 = (dbW7, .err 400 "Wallet mismatch") :=
  c7_confirm_wallet_mismatch envW .notFound reqW7 dbW7 betW7
    (by decide) (by decide) (by decide) (by decide) (by decide)

lemma seedIfEmpty_of_nonempty (g : Nat → String) (now : Int) (db : DB)
    (h : db.markets ≠ []) : seedIfEmpty g now db = db := by
  unfold seedIfEmpty
  rw [if_pos (List.length_pos.mpr h)]

lemma seedIfEmpty_of_empty (g : Nat → String) (now : Int) (db : DB)
    (h : db.markets = []) (hnd : ((List.range seedData.length).map g).Nodup) :
    (seedIfEmpty g now db).markets = seedRows g now := by
  unfold seedIfEmpty
  rw [if_neg (by simp [h]), if_pos hnd]
  simp [h]

lemma seedRows_ne_nil (g : Nat → String) (now : Int) : seedRows g now ≠ [] := by
  simp [seedRows, seedData]

/-- C8: `seedIfEmpty` is idempotent: with any market row present it is the
identity; on an empty market table (and a collision-free id stream) it
installs exactly the fixed catalogue; and a second call after a first
successful call changes nothing at all (in particular the market count). -/
theorem c8_seedIfEmpty_idempotent :
    (∀ g now db, db.markets ≠ [] → seedIfEmpty g now db = db) ∧
    (∀ g now db, db.markets = [] → ((List.range seedData.length).map g).Nodup →
      (seedIfEmpty g now db).markets = seedRows g now) ∧
    (∀ g g2 now now2 db, ((List.range seedData.length).map g).Nodup →
      seedIfEmpty g2 now2 (seedIfEmpty g now db) = seedIfEmpty g now db) := by
  refine ⟨seedIfEmpty_of_nonempty, seedIfEmpty_of_empty, ?_⟩
  intro g g2 now now2 db hnd
  by_cases hm : db.markets = []
  · apply seedIfEmpty_of_nonempty
    rw [seedIfEmpty_of_empty g now db hm hnd]
    exact seedRows_ne_nil g now
  · rw [seedIfEmpty_of_nonempty g now db hm]
    exact seedIfEmpty_of_nonempty g2 now2 db hm

/-- Witness for C8: seeding an empty database twice equals seeding it
once. -/
theorem c8_seedIfEmpty_idempotent_witness :
    ((List.range seedData.length).map gW).Nodup ∧
    seedIfEmpty gW 1 (seedIfEmpty gW 0 { markets := [], bets := [] })
      = seedIfEmpty gW 0 { markets := [], bets := [] } :=
  ⟨by decide, c8_seedIfEmpty_idempotent.2.2 gW gW 0 1 _ (by decide)⟩

lemma amountAccepted_low : amountAccepted (parseAmountSol (.fin (1/200))) = false := by
  have h : parseAmountSol (.fin (1/200)) = some (1/200) := by
    simp only [parseAmountSol, jsRound_eq_floor]
    norm_num
  rw [h]
  simp only [amountAccepted]
  norm_num

/-- C6: every initiate request violating a client precondition (missing or
empty market id, side other than YES/NO, amount failing the parse/minimum
check, unknown market, or malformed wallet) is answered with HTTP 400 and
no bet row is inserted; in particular amountSol = 0.005 is rejected with
"Minimum amount is 0.01 SOL". -/
theorem c6_initiate_precondition_failures :
    (∀ env tv build newId now req db,
      (truthyS req.marketId = false ∨ ¬(req.side = "YES" ∨ req.side = "NO") ∨
        amountAccepted (parseAmountSol req.amountSol) = false ∨
        getMarket db req.marketId = none ∨ walletFormatOk req.wallet = false) →
      (initiate env tv build newId now req db).1 = db ∧
      ∃ msg, (initiate env tv build newId now req db).2 = .err 400 msg) ∧
    (∀ env tv build newId now req db,
      truthyS req.marketId = true → (req.side = "YES" ∨ req.side = "NO") →
      req.amountSol = .fin (1/200) →
      initiate env tv build newId now req db = (db, .err 400 "Minimum amount is 0.01 SOL")) := by
  constructor
  · intro env tv build newId now req db hvio
    by_cases hA : truthyS req.marketId
    case neg =>
      refine ⟨?_, "marketId is required", ?_⟩ <;> simp [initiate, hA]
    by_cases hB : req.side = "YES" ∨ req.side = "NO"
    case neg =>
      refine ⟨?_, "side must be YES or NO", ?_⟩ <;>
        simp [initiate, hA, not_or.mp hB]
    rcases hB with hB | hB
    all_goals (
      by_cases hC : amountAccepted (parseAmountSol req.amountSol)
      case neg =>
        refine ⟨?_, "Minimum amount is 0.01 SOL", ?_⟩ <;>
          simp [initiate, hA, hB, hC]
      by_cases hD : getMarket db req.marketId = none
      case pos =>
        refine ⟨?_, "Unknown market", ?_⟩ <;>
          simp [initiate, hA, hB, hC, hD]
      by_cases hE : walletFormatOk req.wallet
      case neg =>
        refine ⟨?_, "Invalid Solana wallet", ?_⟩ <;>
          simp [initiate, hA, hB, hC, hD, hE]
      exfalso
      rcases hvio with h | h | h | h | h
      · exact absurd h (by simp [hA])
      · exact h (by simp [hB])
      · exact absurd h (by simp [hC])
      · exact hD h
      · exact absurd h (by simp [hE]))
  · intro env tv build newId now req db hA hB hAmt
    have hC : amountAccepted (parseAmountSol req.amountSol) = false := by
      rw [hAmt]; exact amountAccepted_low
    rcases hB with hB | hB <;> simp [initiate, hA, hB, hC]

/-- Witness for C6: initiating 0.005 SOL on an existing market is rejected
with "Minimum amount is 0.01 SOL" and the database is unchanged. -/
theorem c6_initiate_precondition_failures_witness :
    initiate envW true (.built "B64") "N6" 0 reqW6 dbM1
      = (dbM1, .err 400 "Minimum amount is 0.01 SOL") :=
  c6_initiate_precondition_failures.2 envW true (.built "B64") "N6" 0 reqW6 dbM1
    (by decide) (Or.inl rfl) rfl

/-- C2: for a confirm request on an existing bet with matching wallet and a
configured treasury, the handler compares the fetched transfer instruction
against (caller wallet, treasury, round(amount_sol * LAMPORTS_PER_SOL));
on exact match the bet becomes CONFIRMED with the tx reference and a proof
combining bet id and reference; on lookup failure or any mismatch it
becomes FAILED and the reported reason is TX_NOT_FOUND, NO_TRANSFER_IN_TX,
or a MISMATCH description naming the observed source, destination and
amount. -/
theorem c2_confirm_verification_contract (env : Env) (t : String) (lookup : ChainLookup)
    (req : ConfirmReq) (db : DB) (bet : Bet)
    (htr : env.treasury = some t)
    (h1 : truthyS req.betId = true) (h2 : truthyS req.txSignature = true)
    (h3 : truthyS req.wallet = true)
    (hb : getBet db req.betId = some bet) (hw : bet.wallet = req.wallet) :
    (∀ s d l, lookup = .transfer s d l →
      s = req.wallet → d = t →
      JSNum.strictEq (.fin l) ((bet.amount_sol.mulLamports).mathRound) = true →
      getBet (confirm env lookup req db).1 req.betId =
        some { bet with status := "CONFIRMED", tx := some req.txSignature,
                        proof := some ("bet:" ++ req.betId ++ ":sig:" ++ req.txSignature) } ∧
      (confirm env lookup req db).2 =
        .confirmOk req.betId req.txSignature
          ("bet:" ++ req.betId ++ ":sig:" ++ req.txSignature)) ∧
    (lookup = .notFound →
      getBet (confirm env lookup req db).1 req.betId =
        some { bet with status := "FAILED", tx := some req.txSignature } ∧
      (confirm env lookup req db).2 = .confirmFail "TX_NOT_FOUND") ∧
    (lookup = .noTransfer →
      getBet (confirm env lookup req db).1 req.betId =
        some { bet with status := "FAILED", tx := some req.txSignature } ∧
      (confirm env lookup req db).2 = .confirmFail "NO_TRANSFER_IN_TX") ∧
    (∀ s d l, lookup = .transfer s d l →
      ¬(s = req.wallet ∧ d = t ∧
        JSNum.strictEq (.fin l) ((bet.amount_sol.mulLamports).mathRound) = true) →
      getBet (confirm env lookup req db).1 req.betId =
        some { bet with status := "FAILED", tx := some req.txSignature } ∧
      (confirm env lookup req db).2 =
        .confirmFail ("MISMATCH from=" ++ s ++ " to=" ++ d ++ " lamports=" ++ toString l)) := by
  have hb' : db.bets.find? (fun b => b.id = req.betId) = some bet := hb
  have hid : bet.id = req.betId := by simpa using List.find?_some hb'
  refine ⟨?_, ?_, ?_, ?_⟩
  · intro s d l hl hs hd hlam
    subst hl
    have hver : verifySolTransfer (.transfer s d l) req.wallet env.treasury
        ((bet.amount_sol.mulLamports).mathRound) = .ok := by
      simp [verifySolTransfer, htr, hs, hd, hlam]
    have hconf : confirm env (.transfer s d l) req db =
        (markBetConfirmed db req.betId req.txSignature
          (some ("bet:" ++ req.betId ++ ":sig:" ++ req.txSignature)),
         .confirmOk req.betId req.txSignature
          ("bet:" ++ req.betId ++ ":sig:" ++ req.txSignature)) := by
      simp [confirm, h1, h2, h3, hb, hw, hver]
    rw [hconf]
    refine ⟨?_, rfl⟩
    rw [markBetConfirmed_getBet, hb]
    simp [hid]
  · intro hl
    subst hl
    have hconf : confirm env .notFound req db =
        (markBetFailed db req.betId (some req.txSignature) "TX_NOT_FOUND",
         .confirmFail "TX_NOT_FOUND") := by
      simp [confirm, h1, h2, h3, hb, hw, verifySolTransfer]
    rw [hconf]
    refine ⟨?_, rfl⟩
    rw [markBetFailed_getBet, hb]
    simp [hid]
  · intro hl
    subst hl
    have hconf : confirm env .noTransfer req db =
        (markBetFailed db req.betId (some req.txSignature) "NO_TRANSFER_IN_TX",
         .confirmFail "NO_TRANSFER_IN_TX") := by
      simp [confirm, h1, h2, h3, hb, hw, verifySolTransfer]
    rw [hconf]
    refine ⟨?_, rfl⟩
    rw [markBetFailed_getBet, hb]
    simp [hid]
  · intro s d l hl hnot
    subst hl
    have hcond : (decide (s = req.wallet) && decide (some d = env.treasury) &&
        JSNum.strictEq (.fin l) ((bet.amount_sol.mulLamports).mathRound)) = false := by
      rw [htr]
      simp only [Bool.and_eq_true, decide_eq_true_eq, Option.some_inj,
        Bool.eq_false_iff, ne_eq]
      intro hcontra
      exact hnot ⟨hcontra.1.1, hcontra.1.2, hcontra.2⟩
    have hver : verifySolTransfer (.transfer s d l) req.wallet env.treasury
        ((bet.amount_sol.mulLamports).mathRound) =
        .fail ("MISMATCH from=" ++ s ++ " to=" ++ d ++ " lamports=" ++ toString l) := by
      simp only [verifySolTransfer]
      rw [if_neg]
      simp [hcond]
    have hconf : confirm env (.transfer s d l) req db =
        (markBetFailed db req.betId (some req.txSignature)
          ("MISMATCH from=" ++ s ++ " to=" ++ d ++ " lamports=" ++ toString l),
         .confirmFail ("MISMATCH from=" ++ s ++ " to=" ++ d ++ " lamports=" ++ toString l)) := by
      simp [confirm, h1, h2, h3, hb, hw, hver]
    rw [hconf]
    refine ⟨?_, rfl⟩
    rw [markBetFailed_getBet, hb]
    simp [hid]

/-- Witness for C2: an exact-match lookup confirms the pending bet `B2`
and stores the combined proof string. -/
theorem c2_confirm_verification_contract_witness :
    getBet (confirm envW (.transfer "w2" "TREAS" 1000000000) reqW2 dbW2).1 "B2" =
      some { betW2 with status := "CONFIRMED", tx := some "SIG",
                        proof := some "bet:B2:sig:SIG" } ∧
    (confirm envW (.transfer "w2" "TREAS" 1000000000) reqW2 dbW2).2 =
      .confirmOk "B2" "SIG" "bet:B2:sig:SIG" := by
  have hlam : JSNum.strictEq (.fin 1000000000)
      ((betW2.amount_sol.mulLamports).mathRound) = true := by
    simp [betW2, JSNum.mulLamports, JSNum.mathRound, JSNum.strictEq, LAMPORTS_PER_SOL,
      jsRound_eq_floor]
    norm_num
  have h := (c2_confirm_verification_contract envW "TREAS"
      (.transfer "w2" "TREAS" 1000000000) reqW2 dbW2 betW2
      rfl (by decide) (by decide) (by decide) (by decide) rfl).1
      "w2" "TREAS" 1000000000 rfl rfl rfl hlam
  simpa [reqW2, betW2] using h

/-- C10: when an initiate request passes every client-input precondition
but the treasury configuration is missing or invalid, or the chain adapter
fails, the handler answers with a 500 server error, yet the PENDING bet
row has already been inserted and remains in the table. -/
theorem c10_initiate_pending_row_persists (env : Env) (tv : Bool) (build : BuildOutcome)
    (newId : String) (now : Int) (req : InitiateReq) (db : DB)
    (hA : truthyS req.marketId = true)
    (hB : req.side = "YES" ∨ req.side = "NO")
    (hC : amountAccepted (parseAmountSol req.amountSol) = true)
    (hD : getMarket db req.marketId ≠ none)
    (hE : walletFormatOk req.wallet = true)
    (hfresh : getBet db newId = none)
    (hfail : env.treasury = none ∨ tv = false ∨ ∃ m, build = .buildErr m) :
    (initiate env tv build newId now req db).1.bets = db.bets ++
      [{ id := newId, market_id := req.marketId, side := req.side,
         amount_sol := .fin ((parseAmountSol req.amountSol).getD 0), wallet := req.wallet,
         chain := "solana", created_at := now, status := "PENDING",
         tx := none, proof := none }] ∧
    ∃ msg, (initiate env tv build newId now req db).2 = .err 500 msg := by
  have hins : createBet db
      { id := newId, market_id := req.marketId, side := req.side,
        amount_sol := .fin ((parseAmountSol req.amountSol).getD 0), wallet := req.wallet,
        chain := "solana", created_at := now, status := "PENDING",
        tx := none, proof := none } =
      some { db with bets := db.bets ++
        [{ id := newId, market_id := req.marketId, side := req.side,
           amount_sol := .fin ((parseAmountSol req.amountSol).getD 0), wallet := req.wallet,
           chain := "solana", created_at := now, status := "PENDING",
           tx := none, proof := none }] } := by
    have hfind : db.bets.find? (fun b => b.id = newId) = none := hfresh
    simp [createBet, hfind]
  rcases hB with hB | hB <;> rw [hB] at hins <;>
  · rcases hfail with hf | hf | ⟨m, hf⟩
    · simp [initiate, hA, hB, hC, hD, hE, hins, hf]
    · cases henv : env.treasury <;>
        simp [initiate, hA, hB, hC, hD, hE, hins, hf, henv]
    · cases henv : env.treasury <;> cases tv <;>
        simp [initiate, hA, hB, hC, hD, hE, hins, hf, henv]

/-- Witness for C10: a fully valid initiate request with TREASURY_PUBKEY
unset gets a 500 but the PENDING row is persisted. -/
theorem c10_initiate_pending_row_persists_witness :
    (initiate envNoTreasury true (.built "B64") "N10" 0 reqW3 dbM1).1.bets =
      dbM1.bets ++
      [{ id := "N10", market_id := reqW3.marketId, side := reqW3.side,
         amount_sol := .fin ((parseAmountSol reqW3.amountSol).getD 0), wallet := reqW3.wallet,
         chain := "solana", created_at := 0, status := "PENDING",
         tx := none, proof := none }] ∧
    ∃ msg, (initiate envNoTreasury true (.built "B64") "N10" 0 reqW3 dbM1).2 = .err 500 msg :=
  c10_initiate_pending_row_persists envNoTreasury true (.built "B64") "N10" 0 reqW3 dbM1
    (by decide) (Or.inl rfl)
    (by simp [reqW3, parseAmountSol, jsRound_eq_floor, amountAccepted]; norm_num)
    (by decide) (by decide) (by decide) (Or.inl rfl)

lemma confirm_fst_cases (env : Env) (lookup : ChainLookup) (req : ConfirmReq) (db : DB) :
    (confirm env lookup req db).1 = db ∨
    (∃ r, (confirm env lookup req db).1 =
      markBetFailed db req.betId (some req.txSignature) r) ∨
    (∃ p, (confirm env lookup req db).1 =
      markBetConfirmed db req.betId req.txSignature (some p)) := by
  unfold confirm
  split
  · left; rfl
  split
  · left; rfl
  next bet heq =>
    split
    · left; rfl
    cases hv : verifySolTransfer lookup req.wallet env.treasury
        ((bet.amount_sol.mulLamports).mathRound) with
    | fail r => exact Or.inr (Or.inl ⟨r, rfl⟩)
    | ok =>
      exact Or.inr (Or.inr ⟨"bet:" ++ req.betId ++ ":sig:" ++ req.txSignature, rfl⟩)

lemma initiate_fst_cases (env : Env) (tv : Bool) (build : BuildOutcome) (newId : String)
    (now : Int) (req : InitiateReq) (db : DB) :
    (initiate env tv build newId now req db).1 = db ∨
    (amountAccepted (parseAmountSol req.amountSol) = true ∧
     getMarket db req.marketId ≠ none ∧
     (initiate env tv build newId now req db).1 =
       { db with bets := db.bets ++
         [{ id := newId, market_id := req.marketId, side := req.side,
            amount_sol := .fin ((parseAmountSol req.amountSol).getD 0),
            wallet := req.wallet, chain := "solana", created_at := now,
            status := "PENDING", tx := none, proof := none }] }) := by
  unfold initiate
  split
  · left; rfl
  split
  · left; rfl
  split
  · left; rfl
  split
  · left; rfl
  split
  · left; rfl
  rename_i hA hB hC hD hE
  have hC' : amountAccepted (parseAmountSol req.amountSol) = true := by simpa using hC
  have hD' : getMarket db req.marketId ≠ none := by simpa using hD
  rcases createBet_cases db
      { id := newId, market_id := req.marketId, side := req.side,
        amount_sol := .fin ((parseAmountSol req.amountSol).getD 0), wallet := req.wallet,
        chain := "solana", created_at := now, status := "PENDING", tx := none,
        proof := none } with hc | hc
  · rw [hc]
    left; rfl
  · rw [hc]
    refine Or.inr ⟨hC', hD', ?_⟩
    cases env.treasury <;> cases tv <;> cases build <;> rfl

lemma evmReceipt_fst_cases (recovered : Option String) (newId : String) (now : Int)
    (req : EvmReq) (db : DB) :
    (evmReceipt recovered newId now req db).1 = db ∨
    ∃ nb, (evmReceipt recovered newId now req db).1 = { db with bets := db.bets ++ [nb] } := by
  unfold evmReceipt
  split
  · left; rfl
  split
  · left; rfl
  cases recovered with
  | none => left; rfl
  | some rec =>
    dsimp only
    by_cases hsig : lowerStr rec = lowerStr req.address
    · rw [if_neg (not_not_intro hsig)]
      rcases createBet_cases db
          { id := newId, market_id := req.marketId, side := req.side,
            amount_sol := req.amount.toNumber, wallet := req.address, chain := "evm",
            created_at := now, status := "RECEIPT_ONLY", tx := none,
            proof := none } with hc | hc
      · rw [hc]
        left; rfl
      · rw [hc]
        exact Or.inr ⟨{ id := newId, market_id := req.marketId, side := req.side,
                        amount_sol := req.amount.toNumber, wallet := req.address,
                        chain := "evm", created_at := now, status := "RECEIPT_ONLY",
                        tx := none, proof := none }, rfl⟩
    · rw [if_pos hsig]
      left; rfl

/-- C1 counterexample: bet `B1` is already CONFIRMED (terminal according to
the claim), yet a later confirm request for the same bet id whose lookup
fails flips its status to FAILED. -/
theorem c1_counterexample :
    (getBet dbX1 "B1").map Bet.status = some "CONFIRMED" ∧
    (getBet (step (.opConfirm envW .notFound reqX1) dbX1).1 "B1").map Bet.status =
      some "FAILED" := by
  decide

/-- C1 (amended): no operation ever sets a bet's status back to PENDING: a
bet read as non-PENDING still reads as non-PENDING after any request.
(The terminality half of the original claim fails: confirm does not check
the current status, see the counterexample.) -/
theorem c1_no_transition_back_to_pending (op : Op) (db : DB) (id : String) (b : Bet)
    (hb : getBet db id = some b) (hs : b.status ≠ "PENDING") :
    ∀ b', getBet (step op db).1 id = some b' → b'.status ≠ "PENDING" := by
  cases op with
  | opInitiate env tv build newId now req =>
    intro b' hb'
    simp only [step] at hb'
    rcases initiate_fst_cases env tv build newId now req db with hc | ⟨hC, hD, hc⟩
    · rw [hc, hb] at hb'
      cases hb'
      exact hs
    · rw [hc, getBet_append_some db _ id b hb] at hb'
      cases hb'
      exact hs
  | opConfirm env lookup req =>
    intro b' hb'
    simp only [step] at hb'
    rcases confirm_fst_cases env lookup req db with hc | ⟨r, hc⟩ | ⟨p, hc⟩
    · rw [hc, hb] at hb'
      cases hb'
      exact hs
    · rw [hc, markBetFailed_getBet, hb] at hb'
      have hb'' := Option.some_inj.mp (by simpa using hb')
      by_cases hbid : b.id = req.betId
      · rw [if_pos hbid] at hb''
        rw [← hb'']
        simp
      · rw [if_neg hbid] at hb''
        rw [← hb'']
        exact hs
    · rw [hc, markBetConfirmed_getBet, hb] at hb'
      have hb'' := Option.some_inj.mp (by simpa using hb')
      by_cases hbid : b.id = req.betId
      · rw [if_pos hbid] at hb''
        rw [← hb'']
        simp
      · rw [if_neg hbid] at hb''
        rw [← hb'']
        exact hs
  | opEvmReceipt recovered newId now req =>
    intro b' hb'
    simp only [step] at hb'
    rcases evmReceipt_fst_cases recovered newId now req db with hc | ⟨nb, hc⟩
    · rw [hc, hb] at hb'
      cases hb'
      exact hs
    · rw [hc, getBet_append_some db nb id b hb] at hb'
      cases hb'
      exact hs
  | opSeed g now =>
    intro b' hb'
    simp only [step] at hb'
    have hsame : getBet (seedIfEmpty g now db) id = getBet db id := by
      unfold getBet
      rw [seedIfEmpty_bets]
    rw [hsame, hb] at hb'
    cases hb'
    exact hs

/-- Witness for the amended C1: the CONFIRMED bet `B1`, hit by a failing
repeat confirm, ends FAILED - in particular not PENDING. -/
theorem c1_no_transition_back_to_pending_witness :
    ({ betX1 with status := "FAILED", tx := some "SIG2" } : Bet).status ≠ "PENDING" :=
  c1_no_transition_back_to_pending (.opConfirm envW .notFound reqX1) dbX1 "B1" betX1
    (by decide) (by decide) { betX1 with status := "FAILED", tx := some "SIG2" } (by decide)

lemma parseAmountSol_one : parseAmountSol (.fin 1) = some 1 := by
  simp only [parseAmountSol, jsRound_eq_floor]
  norm_num

/-- C3 counterexample: the evm-receipt route only truthiness-checks the
amount, so a request with amount -1 (truthy) creates a bet row whose
amount_sol is -1, which is not positive. -/
theorem c3_counterexample :
    (getBet (evmReceipt (some "0xab") "E3" 5 reqX3 dbM1).1 "E3").map Bet.amount_sol =
      some (.fin (-1)) ∧ ¬ ((0 : ℚ) < -1) := by
  constructor
  · have ht : (JSVal.vnum (.fin (-1))).truthy = true := by
      simp only [JSVal.truthy, JSNum.truthy, ne_eq, decide_eq_true_eq]
      norm_num
    have hlow : lowerStr "0xab" = lowerStr "0xAB" := by decide
    simp [evmReceipt, reqX3, getBet, createBet, truthyS, ht, hlow, JSVal.toNumber, dbM1]
  · norm_num

/-- C3 (amended): every bet row created on the initiate path has a finite
amount that is positive (at least 0.01) with at most 9 decimal places; the
evm-receipt path stores `Number(amount)` behind a mere truthiness check,
which admits non-positive amounts (see the counterexample). -/
theorem c3_initiate_amount_positive_9dp (env : Env) (tv : Bool) (build : BuildOutcome)
    (newId : String) (now : Int) (req : InitiateReq) (db : DB) (b : Bet)
    (hb : b ∈ (initiate env tv build newId now req db).1.bets) :
    b ∈ db.bets ∨
    ∃ a : ℚ, b.amount_sol = .fin a ∧ 0 < a ∧ 1/100 ≤ a ∧ atMost9Decimals a := by
  rcases initiate_fst_cases env tv build newId now req db with hc | ⟨hC, _, hc⟩
  · rw [hc] at hb
    exact Or.inl hb
  · rw [hc] at hb
    simp only [List.mem_append, List.mem_singleton] at hb
    rcases hb with hb | hb
    · exact Or.inl hb
    · right
      rcases hp : parseAmountSol req.amountSol with _ | a
      · rw [hp] at hC
        exact absurd hC (by simp [amountAccepted])
      · have hacc : a ≠ 0 ∧ 1/100 ≤ a := by
          rw [hp] at hC
          simpa [amountAccepted] using hC
        refine ⟨a, ?_, by linarith [hacc.2], hacc.2, parseAmountSol_atMost9 _ a hp⟩
        rw [hb]
        simp [hp]

/-- A valid 1-SOL initiate of `reqW3` against `dbM1` inserts the row
`pendingW3` (shared evaluation for the initiate-path witnesses). -/
lemma pendingW3_mem :
    pendingW3 ∈ (initiate envW true (.built "B64") "N3" 0 reqW3 dbM1).1.bets := by
  have hw : walletFormatOk walletW = true := by decide
  have hacc : amountAccepted (some (1 : ℚ)) = true := by
    simp only [amountAccepted]
    norm_num
  have hmk2 : getMarket { markets := [mkt1], bets := [] } "M1" = some mkt1 := by decide
  simp [initiate, reqW3, envW, createBet, getBet, truthyS, hacc, hw, hmk2,
    parseAmountSol_one, dbM1, pendingW3]

/-- Witness for the amended C3: the row inserted by a valid 1-SOL initiate
has amount 1, which is positive with at most 9 decimals. -/
theorem c3_initiate_amount_positive_9dp_witness :
    pendingW3 ∈ (initiate envW true (.built "B64") "N3" 0 reqW3 dbM1).1.bets ∧
    (pendingW3 ∈ dbM1.bets ∨
     ∃ a : ℚ, pendingW3.amount_sol = .fin a ∧ 0 < a ∧ 1/100 ≤ a ∧ atMost9Decimals a) :=
  ⟨pendingW3_mem, c3_initiate_amount_positive_9dp envW true (.built "B64") "N3" 0 reqW3 dbM1
    pendingW3 pendingW3_mem⟩

/-- C4 counterexample: the evm-receipt route performs no market existence
check (and the SQLite foreign-key pragma is never enabled), so a bet row
is created whose market_id `GHOST` matches no market. -/
theorem c4_counterexample :
    getMarket dbM1 "GHOST" = none ∧
    (getBet (evmReceipt (some "0xab") "E4" 5 reqX4 dbM1).1 "E4").map Bet.market_id =
      some "GHOST" := by
  constructor
  · decide
  · have ht : (JSVal.vnum (.fin (1 : ℚ))).truthy = true := by
      simp only [JSVal.truthy, JSNum.truthy, ne_eq, decide_eq_true_eq]
      norm_num
    have hlow : lowerStr "0xab" = lowerStr "0xAB" := by decide
    simp [evmReceipt, reqX4, getBet, createBet, truthyS, ht, hlow, JSVal.toNumber, dbM1]

/-- C4 (amended): every bet row created on the initiate path has a
market_id that resolves to an existing market at creation time; the
evm-receipt path performs no such check (see the counterexample). -/
theorem c4_initiate_market_exists (env : Env) (tv : Bool) (build : BuildOutcome)
    (newId : String) (now : Int) (req : InitiateReq) (db : DB) (b : Bet)
    (hb : b ∈ (initiate env tv build newId now req db).1.bets) :
    b ∈ db.bets ∨ getMarket db b.market_id ≠ none := by
  rcases initiate_fst_cases env tv build newId now req db with hc | ⟨_, hD, hc⟩
  · rw [hc] at hb
    exact Or.inl hb
  · rw [hc] at hb
    simp only [List.mem_append, List.mem_singleton] at hb
    rcases hb with hb | hb
    · exact Or.inl hb
    · right
      rw [hb]
      exact hD

/-- Witness for the amended C4: the row inserted by a valid initiate
references market `M1`, which exists in `dbM1`. -/
theorem c4_initiate_market_exists_witness :
    pendingW3 ∈ (initiate envW true (.built "B64") "N3" 0 reqW3 dbM1).1.bets ∧
    (pendingW3 ∈ dbM1.bets ∨ getMarket dbM1 pendingW3.market_id ≠ none) :=
  ⟨pendingW3_mem, c4_initiate_market_exists envW true (.built "B64") "N3" 0 reqW3 dbM1
    pendingW3 pendingW3_mem⟩
